import Mathlib

/-!
Shallow embedding of the `MessageBox` slot container from `MessageBox.py`
(and, further below, its twin in `messagebox.py`), together with proofs of
the specification's claims about it.

Python values stored in a slot are modelled as `Option α`: a user item `x`
is `some x` and Python's `None` sentinel is `none`.  Python exceptions are
modelled by an explicit error type carrying the exception class and its
message string, and every fallible method returns `Except`.
-/

/-- Python exceptions raised by the container: `IndexError` and
`RuntimeError`, each with its message. -/
inductive PyError where
  | indexError (msg : String)
  | runtimeError (msg : String)
deriving DecidableEq, Repr

/-- Embedding of Python `str` applied to a slot cell: a stored item is
rendered by the ambient rendering function `f`, and Python `None` renders
as the string `"None"`. -/
def strCell {α : Type} (f : α → String) : Option α → String
  | some x => f x
  | none => "None"

/-- `DEFAULT_SIZE = 10` from `MessageBox.py`. -/
def DEFAULT_SIZE : Int := 10

/-- The state of a `MessageBox` object: the four instance attributes set up
by `__init__` in `MessageBox.py`. -/
structure MessageBox (α : Type) where
  my_size : Int
  count : Int
  messages : List (Option α)
  empty_box : List Bool
deriving DecidableEq, Repr

/-- `MessageBox.__init__`: `my_size = num_entries`, `count = 0`, and the
two backing lists are built by Python list repetition, which yields
`max 0 num_entries` elements. -/
def MessageBox.init {α : Type} (num_entries : Int) : MessageBox α :=
  { my_size := num_entries
    count := 0
    messages := List.replicate num_entries.toNat none
    empty_box := List.replicate num_entries.toNat true }

/-- Constructing a `MessageBox` with no argument uses the default
`num_entries = DEFAULT_SIZE`. -/
def MessageBox.initDefault {α : Type} : MessageBox α :=
  MessageBox.init DEFAULT_SIZE

/-- `MessageBox.empty`: with no index, reports `count == 0`; with an index,
bounds-checks it and then reads the `empty_box` flag. -/
def MessageBox.empty {α : Type} (s : MessageBox α) (index : Option Int) :
    Except PyError Bool :=
  match index with
  | none => Except.ok (s.count == 0)
  | some i =>
    if i < 0 ∨ s.my_size ≤ i then
      Except.error (PyError.indexError "Index out of bounds")
    else
      Except.ok (s.empty_box.getD i.toNat true)

/-- `MessageBox.full`: with no index, reports `count == my_size`; with an
index, delegates to `empty` and negates, propagating its error. -/
def MessageBox.full {α : Type} (s : MessageBox α) (index : Option Int) :
    Except PyError Bool :=
  match index with
  | none => Except.ok (s.count == s.my_size)
  | some i =>
    match s.empty (some i) with
    | Except.ok b => Except.ok (!b)
    | Except.error e => Except.error e

/-- `MessageBox.send`: bounds check, occupancy check via `full`, then store
the message, clear the empty flag and increment `count`. -/
def MessageBox.send {α : Type} (s : MessageBox α) (index : Int) (message : α) :
    Except PyError (MessageBox α) :=
  if index < 0 ∨ s.my_size ≤ index then
    Except.error (PyError.indexError "Index out of bounds")
  else
    match s.full (some index) with
    | Except.error e => Except.error e
    | Except.ok true => Except.error (PyError.runtimeError "Message box position is full")
    | Except.ok false =>
      Except.ok { s with
        messages := s.messages.set index.toNat (some message)
        empty_box := s.empty_box.set index.toNat false
        count := s.count + 1 }

/-- `MessageBox.receive`: bounds check, occupancy check via `empty`, then
read the message, clear the slot, set the empty flag and decrement
`count`, returning the message. -/
def MessageBox.receive {α : Type} (s : MessageBox α) (index : Int) :
    Except PyError (Option α × MessageBox α) :=
  if index < 0 ∨ s.my_size ≤ index then
    Except.error (PyError.indexError "Index out of bounds")
  else
    match s.empty (some index) with
    | Except.error e => Except.error e
    | Except.ok true => Except.error (PyError.runtimeError "Message box position is empty")
    | Except.ok false =>
      Except.ok (s.messages.getD index.toNat none,
        { s with
          messages := s.messages.set index.toNat none
          empty_box := s.empty_box.set index.toNat true
          count := s.count - 1 })

/-- `MessageBox.get_size`. -/
def MessageBox.get_size {α : Type} (s : MessageBox α) : Int :=
  s.my_size

/-- `MessageBox.get_count`. -/
def MessageBox.get_count {α : Type} (s : MessageBox α) : Int :=
  s.count

/-- `MessageBox.to_string`: loop `i` over `range(my_size)`, keep the
rendered contents of the slots whose `empty(i)` check is false (inside the
loop the index is always in bounds, so that check is the `empty_box` flag),
and join with a single space. -/
def MessageBox.to_string {α : Type} (s : MessageBox α) (f : α → String) : String :=
  String.intercalate " "
    (((List.range s.my_size.toNat).filter (fun i => !(s.empty_box.getD i true))).map
      (fun i => strCell f (s.messages.getD i none)))

/-- `MessageBox.print`: emits `to_string()` as one line; modelled as the
emitted line. -/
def MessageBox.printLine {α : Type} (s : MessageBox α) (f : α → String) : String :=
  s.to_string f

/-- `MessageBox.print_verbose`: one line `"{i}:{content}:"` per slot index,
where content is `"<empty>"` for an empty slot and the rendered cell
otherwise; modelled as the list of emitted lines. -/
def MessageBox.print_verbose {α : Type} (s : MessageBox α) (f : α → String) :
    List String :=
  (List.range s.my_size.toNat).map (fun i =>
    toString i ++ ":" ++
      (if s.empty_box.getD i true then "<empty>" else strCell f (s.messages.getD i none))
      ++ ":")

/-- The public operations of the container, used to describe sequences of
calls made by a client. -/
inductive Op (α : Type) where
  | send (index : Int) (message : α)
  | receive (index : Int)
  | empty (index : Option Int)
  | full (index : Option Int)
  | get_size
  | get_count
  | to_string
  | print
  | print_verbose
deriving DecidableEq, Repr

/-- What a client observes from one call: a returned value, emitted output,
or a raised error. -/
inductive Obs (α : Type) where
  | unit
  | bool (b : Bool)
  | int (n : Int)
  | msg (m : Option α)
  | str (s : String)
  | lines (l : List String)
  | err (e : PyError)
deriving DecidableEq, Repr

/-- One public call on a `MessageBox`: the observation it yields and the
state afterwards.  A raised error leaves the state as it was (in the Python
code every `raise` happens before any field assignment). -/
def MessageBox.step {α : Type} (s : MessageBox α) (f : α → String) :
    Op α → Obs α × MessageBox α
  | Op.send i m =>
    match s.send i m with
    | Except.ok s' => (Obs.unit, s')
    | Except.error e => (Obs.err e, s)
  | Op.receive i =>
    match s.receive i with
    | Except.ok (r, s') => (Obs.msg r, s')
    | Except.error e => (Obs.err e, s)
  | Op.empty i =>
    match s.empty i with
    | Except.ok b => (Obs.bool b, s)
    | Except.error e => (Obs.err e, s)
  | Op.full i =>
    match s.full i with
    | Except.ok b => (Obs.bool b, s)
    | Except.error e => (Obs.err e, s)
  | Op.get_size => (Obs.int s.get_size, s)
  | Op.get_count => (Obs.int s.get_count, s)
  | Op.to_string => (Obs.str (s.to_string f), s)
  | Op.print => (Obs.str (s.printLine f), s)
  | Op.print_verbose => (Obs.lines (s.print_verbose f), s)

/-- Run a sequence of public calls, collecting the observations. -/
def MessageBox.run {α : Type} (s : MessageBox α) (f : α → String) :
    List (Op α) → List (Obs α) × MessageBox α
  | [] => ([], s)
  | op :: ops =>
    let r := s.step f op
    let rest := r.2.run f ops
    (r.1 :: rest.1, rest.2)

/-- States reachable from some construction through any sequence of public
operations. -/
inductive Reachable {α : Type} (f : α → String) : MessageBox α → Prop where
  | init (n : Int) : Reachable f (MessageBox.init n)
  | step (s : MessageBox α) (op : Op α) :
      Reachable f s → Reachable f (MessageBox.step s f op).2

/-- Well-formedness: the backing lists have the length `__init__` gives
them.  Every state of an actual Python `MessageBox` object satisfies this. -/
def WF {α : Type} (s : MessageBox α) : Prop :=
  s.messages.length = s.my_size.toNat ∧ s.empty_box.length = s.my_size.toNat

/-- Full state invariant: well-formed and the `count` field equals the number
of occupied slots (flags set to `false` in `empty_box`). -/
def BoxInv {α : Type} (s : MessageBox α) : Prop :=
  WF s ∧ s.count = (s.empty_box.count false : Int)

/-- Spec-side description function, written from the spec's words for
`describe()`: the stored items, slot by slot in ascending index order,
rendered to text and joined with a single space; empty slots contribute
nothing. -/
def describe_spec {α : Type} (s : MessageBox α) (f : α → String) : String :=
  String.intercalate " "
    ((s.messages.zip s.empty_box).filterMap
      (fun p => if p.2 then none else some (strCell f p.1)))

namespace messagebox

/-- `DEFAULT_SIZE = 10` from `messagebox.py`. -/
def DEFAULT_SIZE : Int := 10

/-- The state of a `messagebox.py` `MessageBox` object: the four instance
attributes set up by its `__init__`. -/
structure MessageBox (α : Type) where
  my_size : Int
  count : Int
  messages : List (Option α)
  empty_box : List Bool
deriving DecidableEq, Repr

/-- `__init__` of `messagebox.py`. -/
def MessageBox.init {α : Type} (num_entries : Int) : MessageBox α :=
  { my_size := num_entries
    count := 0
    messages := List.replicate num_entries.toNat none
    empty_box := List.replicate num_entries.toNat true }

/-- `empty` of `messagebox.py`. -/
def MessageBox.empty {α : Type} (s : MessageBox α) (index : Option Int) :
    Except PyError Bool :=
  match index with
  | none => Except.ok (s.count == 0)
  | some i =>
    if i < 0 ∨ s.my_size ≤ i then
      Except.error (PyError.indexError "Index out of bounds")
    else
      Except.ok (s.empty_box.getD i.toNat true)

/-- `full` of `messagebox.py`. -/
def MessageBox.full {α : Type} (s : MessageBox α) (index : Option Int) :
    Except PyError Bool :=
  match index with
  | none => Except.ok (s.count == s.my_size)
  | some i =>
    match s.empty (some i) with
    | Except.ok b => Except.ok (!b)
    | Except.error e => Except.error e

/-- `send` of `messagebox.py`. -/
def MessageBox.send {α : Type} (s : MessageBox α) (index : Int) (message : α) :
    Except PyError (MessageBox α) :=
  if index < 0 ∨ s.my_size ≤ index then
    Except.error (PyError.indexError "Index out of bounds")
  else
    match s.full (some index) with
    | Except.error e => Except.error e
    | Except.ok true => Except.error (PyError.runtimeError "Message box position is full")
    | Except.ok false =>
      Except.ok { s with
        messages := s.messages.set index.toNat (some message)
        empty_box := s.empty_box.set index.toNat false
        count := s.count + 1 }

/-- `receive` of `messagebox.py`. -/
def MessageBox.receive {α : Type} (s : MessageBox α) (index : Int) :
    Except PyError (Option α × MessageBox α) :=
  if index < 0 ∨ s.my_size ≤ index then
    Except.error (PyError.indexError "Index out of bounds")
  else
    match s.empty (some index) with
    | Except.error e => Except.error e
    | Except.ok true => Except.error (PyError.runtimeError "Message box position is empty")
    | Except.ok false =>
      Except.ok (s.messages.getD index.toNat none,
        { s with
          messages := s.messages.set index.toNat none
          empty_box := s.empty_box.set index.toNat true
          count := s.count - 1 })

/-- `get_size` of `messagebox.py`. -/
def MessageBox.get_size {α : Type} (s : MessageBox α) : Int :=
  s.my_size

/-- `get_count` of `messagebox.py`. -/
def MessageBox.get_count {α : Type} (s : MessageBox α) : Int :=
  s.count

/-- `to_string` of `messagebox.py`. -/
def MessageBox.to_string {α : Type} (s : MessageBox α) (f : α → String) : String :=
  String.intercalate " "
    (((List.range s.my_size.toNat).filter (fun i => !(s.empty_box.getD i true))).map
      (fun i => strCell f (s.messages.getD i none)))

/-- `print` of `messagebox.py`, modelled as the emitted line. -/
def MessageBox.printLine {α : Type} (s : MessageBox α) (f : α → String) : String :=
  s.to_string f

/-- `print_verbose` of `messagebox.py`, modelled as the emitted lines. -/
def MessageBox.print_verbose {α : Type} (s : MessageBox α) (f : α → String) :
    List String :=
  (List.range s.my_size.toNat).map (fun i =>
    toString i ++ ":" ++
      (if s.empty_box.getD i true then "<empty>" else strCell f (s.messages.getD i none))
      ++ ":")

/-- One public call on a `messagebox.py` box, with the same observation
interface as for `MessageBox.py`. -/
def MessageBox.step {α : Type} (s : MessageBox α) (f : α → String) :
    Op α → Obs α × MessageBox α
  | Op.send i m =>
    match s.send i m with
    | Except.ok s' => (Obs.unit, s')
    | Except.error e => (Obs.err e, s)
  | Op.receive i =>
    match s.receive i with
    | Except.ok (r, s') => (Obs.msg r, s')
    | Except.error e => (Obs.err e, s)
  | Op.empty i =>
    match s.empty i with
    | Except.ok b => (Obs.bool b, s)
    | Except.error e => (Obs.err e, s)
  | Op.full i =>
    match s.full i with
    | Except.ok b => (Obs.bool b, s)
    | Except.error e => (Obs.err e, s)
  | Op.get_size => (Obs.int s.get_size, s)
  | Op.get_count => (Obs.int s.get_count, s)
  | Op.to_string => (Obs.str (s.to_string f), s)
  | Op.print => (Obs.str (s.printLine f), s)
  | Op.print_verbose => (Obs.lines (s.print_verbose f), s)

/-- Run a sequence of public calls on a `messagebox.py` box. -/
def MessageBox.run {α : Type} (s : MessageBox α) (f : α → String) :
    List (Op α) → List (Obs α) × MessageBox α
  | [] => ([], s)
  | op :: ops =>
    let r := s.step f op
    let rest := r.2.run f ops
    (r.1 :: rest.1, rest.2)

end messagebox

/-- Field-for-field correspondence between a `MessageBox.py` state and a
`messagebox.py` state. -/
def toLower {α : Type} (s : MessageBox α) : messagebox.MessageBox α :=
  ⟨s.my_size, s.count, s.messages, s.empty_box⟩

theorem getD_set_self {α : Type} (l : List α) (i : Nat) (a d : α)
    (h : i < l.length) : (l.set i a).getD i d = a := by
  simp [List.getD_eq_getElem?_getD, List.getElem?_set_self, h]

theorem getD_set_ne {α : Type} (l : List α) (i j : Nat) (a d : α)
    (h : i ≠ j) : (l.set i a).getD j d = l.getD j d := by
  simp [List.getD_eq_getElem?_getD, List.getElem?_set_ne h]

theorem count_false_set_false (l : List Bool) : ∀ i : Nat, i < l.length →
    l.getD i true = true → (l.set i false).count false = l.count false + 1 := by
  induction l with
  | nil => intro i h; simp at h
  | cons b t ih =>
    intro i h hg
    cases i with
    | zero =>
      simp only [List.getD_cons_zero] at hg
      subst hg
      simp [List.set, List.count_cons]
    | succ j =>
      simp only [List.getD_cons_succ] at hg
      simp only [List.set, List.count_cons]
      rw [ih j (by simpa using h) hg]
      omega

theorem count_false_set_true (l : List Bool) : ∀ i : Nat,
    l.getD i true = false → (l.set i true).count false + 1 = l.count false := by
  induction l with
  | nil => intro i hg; simp at hg
  | cons b t ih =>
    intro i hg
    cases i with
    | zero =>
      simp only [List.getD_cons_zero] at hg
      subst hg
      simp [List.set, List.count_cons]
    | succ j =>
      simp only [List.getD_cons_succ] at hg
      simp only [List.set, List.count_cons]
      rw [← ih j hg]
      omega

/-- Characterization of a successful `send`. -/
theorem send_ok_iff {α : Type} (s : MessageBox α) (i : Int) (m : α)
    (s' : MessageBox α) :
    s.send i m = Except.ok s' ↔
      0 ≤ i ∧ i < s.my_size ∧ s.empty_box.getD i.toNat true = true ∧
      s' = { s with
        messages := s.messages.set i.toNat (some m)
        empty_box := s.empty_box.set i.toNat false
        count := s.count + 1 } := by
  simp only [MessageBox.send, MessageBox.full, MessageBox.empty]
  by_cases h : i < 0 ∨ s.my_size ≤ i
  · rw [if_pos h]
    constructor
    · intro hc; exact absurd hc (by simp)
    · rintro ⟨h0, h1, -, -⟩; omega
  · push_neg at h
    have hcond : ¬(i < 0 ∨ s.my_size ≤ i) := by omega
    cases hb : s.empty_box.getD i.toNat true <;>
      simp [hb, hcond, h.1, h.2, eq_comm]

/-- Characterization of a successful `receive`. -/
theorem receive_ok_iff {α : Type} (s : MessageBox α) (i : Int)
    (r : Option α) (s' : MessageBox α) :
    s.receive i = Except.ok (r, s') ↔
      0 ≤ i ∧ i < s.my_size ∧ s.empty_box.getD i.toNat true = false ∧
      r = s.messages.getD i.toNat none ∧
      s' = { s with
        messages := s.messages.set i.toNat none
        empty_box := s.empty_box.set i.toNat true
        count := s.count - 1 } := by
  simp only [MessageBox.receive, MessageBox.empty]
  by_cases h : i < 0 ∨ s.my_size ≤ i
  · rw [if_pos h]
    constructor
    · intro hc; exact absurd hc (by simp)
    · rintro ⟨h0, h1, -, -⟩; omega
  · push_neg at h
    have hcond : ¬(i < 0 ∨ s.my_size ≤ i) := by omega
    cases hb : s.empty_box.getD i.toNat true <;>
      simp [hb, hcond, h.1, h.2, eq_comm, and_comm]

/-- Every public call either leaves the state unchanged or is a successful
`send` or `receive`. -/
theorem step_state {α : Type} (f : α → String) (s : MessageBox α) (op : Op α) :
    (s.step f op).2 = s ∨
    (∃ i m s', s.send i m = Except.ok s' ∧ (s.step f op).2 = s') ∨
    (∃ i r s', s.receive i = Except.ok (r, s') ∧ (s.step f op).2 = s') := by
  cases op with
  | send i m =>
    rcases h : s.send i m with e | s'
    · left; simp [MessageBox.step, h]
    · right; left; exact ⟨i, m, s', h, by simp [MessageBox.step, h]⟩
  | receive i =>
    rcases h : s.receive i with e | p
    · left; simp [MessageBox.step, h]
    · right; right; exact ⟨i, p.1, p.2, by simpa using h, by simp [MessageBox.step, h]⟩
  | empty i =>
    left; rcases h : s.empty i with e | b <;> simp [MessageBox.step, h]
  | full i =>
    left; rcases h : s.full i with e | b <;> simp [MessageBox.step, h]
  | get_size => left; rfl
  | get_count => left; rfl
  | to_string => left; rfl
  | print => left; rfl
  | print_verbose => left; rfl

theorem send_ok_boxInv {α : Type} {s s' : MessageBox α} {i : Int} {m : α}
    (hinv : BoxInv s) (h : s.send i m = Except.ok s') : BoxInv s' := by
  rw [send_ok_iff] at h
  obtain ⟨h0, h1, hflag, rfl⟩ := h
  obtain ⟨⟨hm, hb⟩, hc⟩ := hinv
  refine ⟨⟨by simp [List.length_set, hm], by simp [List.length_set, hb]⟩, ?_⟩
  have hlt : i.toNat < s.empty_box.length := by rw [hb]; omega
  show s.count + 1 = ((s.empty_box.set i.toNat false).count false : Int)
  rw [count_false_set_false _ _ hlt hflag]
  push_cast
  omega

theorem receive_ok_boxInv {α : Type} {s s' : MessageBox α} {i : Int}
    {r : Option α} (hinv : BoxInv s) (h : s.receive i = Except.ok (r, s')) :
    BoxInv s' := by
  rw [receive_ok_iff] at h
  obtain ⟨h0, h1, hflag, -, rfl⟩ := h
  obtain ⟨⟨hm, hb⟩, hc⟩ := hinv
  refine ⟨⟨by simp [List.length_set, hm], by simp [List.length_set, hb]⟩, ?_⟩
  show s.count - 1 = ((s.empty_box.set i.toNat true).count false : Int)
  have := count_false_set_true s.empty_box i.toNat hflag
  omega

theorem reachable_boxInv {α : Type} (f : α → String) (s : MessageBox α)
    (h : Reachable f s) : BoxInv s := by
  induction h with
  | init n =>
    refine ⟨⟨by simp [MessageBox.init], by simp [MessageBox.init]⟩, ?_⟩
    show (0 : Int) = ((List.replicate n.toNat true).count false : Int)
    simp [List.count_replicate]
  | step s op hs ih =>
    rcases step_state f s op with h | ⟨i, m, s', hok, he⟩ | ⟨i, r, s', hok, he⟩
    · rw [h]; exact ih
    · rw [he]; exact send_ok_boxInv ih hok
    · rw [he]; exact receive_ok_boxInv ih hok

/-- C1: in every container state reachable from construction through any
sequence of public operations, the `count` field equals the number of slots
currently holding an item (occupancy flags set to `false`); moreover every
successful `send` increments `count` by exactly 1 and every successful
`receive` decrements it by exactly 1. -/
theorem count_invariant_of_reachable {α : Type} (f : α → String)
    (s : MessageBox α) (hr : Reachable f s) :
    s.count = (s.empty_box.count false : Int) ∧
    (∀ (i : Int) (m : α) (s' : MessageBox α), s.send i m = Except.ok s' →
      s'.count = s.count + 1) ∧
    (∀ (i : Int) (r : Option α) (s' : MessageBox α),
      s.receive i = Except.ok (r, s') → s'.count = s.count - 1) := by
  refine ⟨(reachable_boxInv f s hr).2, ?_, ?_⟩
  · intro i m s' h
    rw [send_ok_iff] at h
    obtain ⟨-, -, -, rfl⟩ := h
    rfl
  · intro i r s' h
    rw [receive_ok_iff] at h
    obtain ⟨-, -, -, -, rfl⟩ := h
    rfl

/-- Witness for C1 at the concretely reachable state `init 3`. -/
theorem count_invariant_of_reachable_witness :
    (MessageBox.init 3 : MessageBox String).count =
      ((MessageBox.init 3 : MessageBox String).empty_box.count false : Int) ∧
    (∀ (i : Int) (m : String) (s' : MessageBox String),
      (MessageBox.init 3 : MessageBox String).send i m = Except.ok s' →
        s'.count = (MessageBox.init 3 : MessageBox String).count + 1) ∧
    (∀ (i : Int) (r : Option String) (s' : MessageBox String),
      (MessageBox.init 3 : MessageBox String).receive i = Except.ok (r, s') →
        s'.count = (MessageBox.init 3 : MessageBox String).count - 1) :=
  count_invariant_of_reachable (fun x => x) (MessageBox.init 3) (Reachable.init 3)

/-- C2: when `send` or `receive` raises (any of the three error kinds), the
call leaves the whole observable state — every slot's contents, every
occupancy flag and the count — exactly as before; the per-index `empty` and
`full` queries never change the state either. -/
theorem failed_call_leaves_state_unchanged {α : Type} (f : α → String)
    (s : MessageBox α) (i : Int) (m : α) (e e' : PyError) :
    ((s.step f (Op.send i m)).1 = Obs.err e → (s.step f (Op.send i m)).2 = s) ∧
    ((s.step f (Op.receive i)).1 = Obs.err e' → (s.step f (Op.receive i)).2 = s) ∧
    (s.step f (Op.empty (some i))).2 = s ∧
    (s.step f (Op.full (some i))).2 = s := by
  refine ⟨?_, ?_, ?_, ?_⟩
  · intro hobs
    rcases h : s.send i m with e2 | s2
    · simp [MessageBox.step, h]
    · simp [MessageBox.step, h] at hobs
  · intro hobs
    rcases h : s.receive i with e2 | p
    · simp [MessageBox.step, h]
    · simp [MessageBox.step, h] at hobs
  · rcases h : s.empty (some i) with e2 | b <;> simp [MessageBox.step, h]
  · rcases h : s.full (some i) with e2 | b <;> simp [MessageBox.step, h]

/-- Witness for C2: a `send` and a `receive` that fail out of range on a
concrete box leave its state unchanged. -/
theorem failed_call_leaves_state_unchanged_witness :
    ((MessageBox.init 2 : MessageBox String).step (fun x => x)
        (Op.send 5 "x")).2 = MessageBox.init 2 ∧
    ((MessageBox.init 2 : MessageBox String).step (fun x => x)
        (Op.receive 5)).2 = MessageBox.init 2 :=
  ⟨(failed_call_leaves_state_unchanged (fun x => x) (MessageBox.init 2) 5 "x"
      (PyError.indexError "Index out of bounds")
      (PyError.indexError "Index out of bounds")).1 rfl,
   (failed_call_leaves_state_unchanged (fun x => x) (MessageBox.init 2) 5 "x"
      (PyError.indexError "Index out of bounds")
      (PyError.indexError "Index out of bounds")).2.1 rfl⟩

/-- C3: every slot-addressed operation given an out-of-range index fails
with the `IndexError "Index out of bounds"` — the bounds check comes before
any occupancy check, so the result is never one of the occupancy
`RuntimeError`s, whose kind is distinct. -/
theorem out_of_range_fails_with_index_error {α : Type} (s : MessageBox α)
    (i : Int) (m : α) (h : i < 0 ∨ s.my_size ≤ i) :
    s.send i m = Except.error (PyError.indexError "Index out of bounds") ∧
    s.receive i = Except.error (PyError.indexError "Index out of bounds") ∧
    s.empty (some i) = Except.error (PyError.indexError "Index out of bounds") ∧
    s.full (some i) = Except.error (PyError.indexError "Index out of bounds") ∧
    ∀ msg : String,
      PyError.indexError "Index out of bounds" ≠ PyError.runtimeError msg := by
  refine ⟨?_, ?_, ?_, ?_, fun msg h' => by cases h'⟩ <;>
    simp [MessageBox.send, MessageBox.receive, MessageBox.empty,
      MessageBox.full, if_pos h]

/-- Witness for C3 at `index = -1` and `index = capacity` on a capacity-10
box (whose slot 0 is occupied or empty makes no difference). -/
theorem out_of_range_fails_with_index_error_witness :
    ((MessageBox.init 10 : MessageBox String).send (-1) "x" =
        Except.error (PyError.indexError "Index out of bounds") ∧
      (MessageBox.init 10 : MessageBox String).receive (-1) =
        Except.error (PyError.indexError "Index out of bounds") ∧
      (MessageBox.init 10 : MessageBox String).empty (some (-1)) =
        Except.error (PyError.indexError "Index out of bounds") ∧
      (MessageBox.init 10 : MessageBox String).full (some (-1)) =
        Except.error (PyError.indexError "Index out of bounds") ∧
      ∀ msg : String,
        PyError.indexError "Index out of bounds" ≠ PyError.runtimeError msg) ∧
    ((MessageBox.init 10 : MessageBox String).send 10 "x" =
        Except.error (PyError.indexError "Index out of bounds") ∧
      (MessageBox.init 10 : MessageBox String).receive 10 =
        Except.error (PyError.indexError "Index out of bounds") ∧
      (MessageBox.init 10 : MessageBox String).empty (some 10) =
        Except.error (PyError.indexError "Index out of bounds") ∧
      (MessageBox.init 10 : MessageBox String).full (some 10) =
        Except.error (PyError.indexError "Index out of bounds") ∧
      ∀ msg : String,
        PyError.indexError "Index out of bounds" ≠ PyError.runtimeError msg) :=
  ⟨out_of_range_fails_with_index_error (MessageBox.init 10) (-1) "x"
      (Or.inl (by decide)),
   out_of_range_fails_with_index_error (MessageBox.init 10) 10 "x"
      (Or.inr (by decide))⟩

/-- C4: on a well-formed state, depositing into an in-range empty slot and
immediately retrieving from that slot succeeds, returns exactly the stored
item, and leaves the slot empty with `count` back at its value before the
send. -/
theorem send_receive_roundtrip {α : Type} (s : MessageBox α) (i : Int) (x : α)
    (hw : WF s) (h0 : 0 ≤ i) (h1 : i < s.my_size)
    (he : s.empty (some i) = Except.ok true) :
    ∃ s1 s2 : MessageBox α,
      s.send i x = Except.ok s1 ∧
      s1.receive i = Except.ok (some x, s2) ∧
      s2.empty (some i) = Except.ok true ∧
      s2.count = s.count := by
  have hcond : ¬(i < 0 ∨ s.my_size ≤ i) := by omega
  have hflag : s.empty_box.getD i.toNat true = true := by
    simpa [MessageBox.empty, hcond] using he
  have hlenb : i.toNat < s.empty_box.length := by
    have := hw.2; omega
  have hlenm : i.toNat < s.messages.length := by
    have := hw.1; omega
  refine ⟨{ s with
      messages := s.messages.set i.toNat (some x)
      empty_box := s.empty_box.set i.toNat false
      count := s.count + 1 },
    { s with
      messages := (s.messages.set i.toNat (some x)).set i.toNat none
      empty_box := (s.empty_box.set i.toNat false).set i.toNat true
      count := s.count + 1 - 1 }, ?_, ?_, ?_, ?_⟩
  · rw [send_ok_iff]
    exact ⟨h0, h1, hflag, rfl⟩
  · rw [receive_ok_iff]
    refine ⟨h0, h1, ?_, ?_, rfl⟩
    · exact getD_set_self s.empty_box i.toNat false true hlenb
    · exact (getD_set_self s.messages i.toNat (some x) none hlenm).symm
  · simp [MessageBox.empty, hcond, List.getD_eq_getElem?_getD,
      List.getElem?_set_self, hlenb]
  · show s.count + 1 - 1 = s.count
    omega

/-- Witness for C4 on a fresh capacity-3 box at slot 1. -/
theorem send_receive_roundtrip_witness :
    WF (MessageBox.init 3 : MessageBox String) ∧
    (0 : Int) ≤ 1 ∧ (1 : Int) < (MessageBox.init 3 : MessageBox String).my_size ∧
    (MessageBox.init 3 : MessageBox String).empty (some 1) = Except.ok true ∧
    (∃ s1 s2 : MessageBox String,
      (MessageBox.init 3 : MessageBox String).send 1 "hi" = Except.ok s1 ∧
      s1.receive 1 = Except.ok (some "hi", s2) ∧
      s2.empty (some 1) = Except.ok true ∧
      s2.count = (MessageBox.init 3 : MessageBox String).count) :=
  ⟨⟨rfl, rfl⟩, by decide, by decide, rfl,
    send_receive_roundtrip (MessageBox.init 3) 1 "hi" ⟨rfl, rfl⟩
      (by decide) (by decide) rfl⟩

/-- C9: after a successful `send` on a well-formed state, the per-index
`empty` check at that index is `false`, the per-index `full` check is
`true`, and `get_count` is exactly one greater than before. -/
theorem send_success_postconditions {α : Type} (s s' : MessageBox α)
    (i : Int) (x : α) (hw : WF s) (h : s.send i x = Except.ok s') :
    s'.empty (some i) = Except.ok false ∧
    s'.full (some i) = Except.ok true ∧
    s'.get_count = s.get_count + 1 := by
  rw [send_ok_iff] at h
  obtain ⟨h0, h1, hflag, rfl⟩ := h
  have hcond : ¬(i < 0 ∨ s.my_size ≤ i) := by omega
  have hlenb : i.toNat < s.empty_box.length := by
    have := hw.2; omega
  have hget : (s.empty_box.set i.toNat false).getD i.toNat true = false :=
    getD_set_self s.empty_box i.toNat false true hlenb
  refine ⟨?_, ?_, rfl⟩
  · simp only [MessageBox.empty]
    rw [if_neg hcond, hget]
  · simp only [MessageBox.full, MessageBox.empty]
    rw [if_neg hcond, hget]
    rfl

/-- Witness for C9: sending "a" to slot 0 of a fresh capacity-2 box. -/
theorem send_success_postconditions_witness :
    WF (MessageBox.init 2 : MessageBox String) ∧
    (MessageBox.init 2 : MessageBox String).send 0 "a" = Except.ok
      { my_size := 2, count := 1,
        messages := [some "a", none], empty_box := [false, true] } ∧
    ({ my_size := 2, count := 1, messages := [some "a", none],
        empty_box := [false, true] } : MessageBox String).empty (some 0) =
      Except.ok false ∧
    ({ my_size := 2, count := 1, messages := [some "a", none],
        empty_box := [false, true] } : MessageBox String).full (some 0) =
      Except.ok true ∧
    ({ my_size := 2, count := 1, messages := [some "a", none],
        empty_box := [false, true] } : MessageBox String).get_count =
      (MessageBox.init 2 : MessageBox String).get_count + 1 :=
  ⟨⟨rfl, rfl⟩, rfl,
    send_success_postconditions (MessageBox.init 2)
      { my_size := 2, count := 1, messages := [some "a", none],
        empty_box := [false, true] } 0 "a" ⟨rfl, rfl⟩ rfl⟩

/-- C6: the per-index `full` check is the delegated negation of the
per-index `empty` check — on success it returns the negated boolean, and on
failure it propagates exactly the same error, which for an out-of-range
index is the `IndexError "Index out of bounds"` for both. -/
theorem full_is_negation_of_empty {α : Type} (s : MessageBox α) (i : Int) :
    (∀ b : Bool, s.empty (some i) = Except.ok b →
      s.full (some i) = Except.ok (!b)) ∧
    (∀ e : PyError, s.empty (some i) = Except.error e →
      s.full (some i) = Except.error e) ∧
    ((i < 0 ∨ s.my_size ≤ i) →
      s.empty (some i) = Except.error (PyError.indexError "Index out of bounds") ∧
      s.full (some i) = Except.error (PyError.indexError "Index out of bounds")) := by
  refine ⟨?_, ?_, ?_⟩
  · intro b hb
    simp [MessageBox.full, hb]
  · intro e he
    simp [MessageBox.full, he]
  · intro h
    constructor <;> simp [MessageBox.empty, MessageBox.full, if_pos h]

/-- Witness for C6: on a fresh capacity-2 box, slot 0 is empty so `full` is
its negation, and index 5 makes both checks fail with the same error. -/
theorem full_is_negation_of_empty_witness :
    (MessageBox.init 2 : MessageBox String).full (some 0) = Except.ok (!true) ∧
    (MessageBox.init 2 : MessageBox String).full (some 5) =
      Except.error (PyError.indexError "Index out of bounds") :=
  ⟨(full_is_negation_of_empty (MessageBox.init 2) 0).1 true rfl,
   (full_is_negation_of_empty (MessageBox.init 2) 5).2.1
      (PyError.indexError "Index out of bounds") rfl⟩

/-- C7: the overall queries never fail; overall `empty` is true iff
`get_count` is 0, and overall `full` is true iff `get_count` equals
`get_size`. -/
theorem overall_queries_never_fail {α : Type} (s : MessageBox α) :
    (s.empty none).isOk = true ∧ (s.full none).isOk = true ∧
    (s.empty none = Except.ok true ↔ s.get_count = 0) ∧
    (s.full none = Except.ok true ↔ s.get_count = s.get_size) := by
  refine ⟨rfl, rfl, ?_, ?_⟩
  · simp [MessageBox.empty, MessageBox.get_count]
  · simp [MessageBox.full, MessageBox.get_count, MessageBox.get_size]

/-- Witness for C7 at a fresh capacity-2 box. -/
theorem overall_queries_never_fail_witness :
    ((MessageBox.init 2 : MessageBox String).empty none).isOk = true ∧
    ((MessageBox.init 2 : MessageBox String).full none).isOk = true ∧
    ((MessageBox.init 2 : MessageBox String).empty none = Except.ok true ↔
      (MessageBox.init 2 : MessageBox String).get_count = 0) ∧
    ((MessageBox.init 2 : MessageBox String).full none = Except.ok true ↔
      (MessageBox.init 2 : MessageBox String).get_count =
        (MessageBox.init 2 : MessageBox String).get_size) :=
  overall_queries_never_fail (MessageBox.init 2)

theorem getD_replicate_self {α : Type} (n i : Nat) (a : α) :
    (List.replicate n a).getD i a = a := by
  rcases Nat.lt_or_ge i n with h | h
  · simp [List.getD_eq_getElem?_getD, List.getElem?_replicate, h]
  · simp [List.getD_eq_getElem?_getD, List.getElem?_replicate, Nat.not_lt.mpr h]

/-- C8: construction with any integer capacity (zero and negative included)
yields a box whose `get_size` is exactly that value, whose count is 0 and
whose in-range slots are all empty; the default capacity is 10. -/
theorem construction_properties {α : Type} (n : Int) :
    (MessageBox.init n : MessageBox α).get_size = n ∧
    (MessageBox.init n : MessageBox α).get_count = 0 ∧
    (∀ i : Int, 0 ≤ i → i < n →
      (MessageBox.init n : MessageBox α).empty (some i) = Except.ok true) ∧
    (MessageBox.initDefault : MessageBox α).get_size = 10 ∧
    DEFAULT_SIZE = 10 := by
  refine ⟨rfl, rfl, ?_, rfl, rfl⟩
  intro i hi0 hi1
  simp [MessageBox.empty, MessageBox.init, getD_replicate_self]
  omega

/-- Witness for C8 at capacities 4 and -3. -/
theorem construction_properties_witness :
    (MessageBox.init 4 : MessageBox String).get_size = 4 ∧
    (MessageBox.init 4 : MessageBox String).get_count = 0 ∧
    (MessageBox.init 4 : MessageBox String).empty (some 2) = Except.ok true ∧
    (MessageBox.init (-3) : MessageBox String).get_size = -3 ∧
    (MessageBox.initDefault : MessageBox String).get_size = 10 :=
  ⟨(@construction_properties String 4).1,
   (@construction_properties String 4).2.1,
   (@construction_properties String 4).2.2.1 2 (by decide) (by decide),
   (@construction_properties String (-3)).1,
   (@construction_properties String 4).2.2.2.1⟩

theorem range_filter_eq_zip {α : Type} (f : α → String) :
    ∀ (bs : List Bool) (ms : List (Option α)), ms.length = bs.length →
      ((List.range bs.length).filter (fun i => !(bs.getD i true))).map
          (fun i => strCell f (ms.getD i none)) =
        (ms.zip bs).filterMap
          (fun p => if p.2 then none else some (strCell f p.1)) := by
  intro bs
  induction bs with
  | nil => intro ms h; simp
  | cons b t ih =>
    intro ms h
    cases ms with
    | nil => simp at h
    | cons m mt =>
      simp only [List.length_cons, Nat.succ.injEq] at h
      rw [List.length_cons, List.range_succ_eq_map, List.filter_cons]
      have hpred : ((fun i => !((b :: t).getD i true)) ∘ Nat.succ) =
          (fun i => !(t.getD i true)) := by
        funext j
        simp [Function.comp, List.getD_cons_succ]
      rw [List.filter_map, hpred]
      have hcomp : ((fun i => strCell f ((m :: mt).getD i none)) ∘ Nat.succ) =
          (fun i => strCell f (mt.getD i none)) := by
        funext j
        simp [Function.comp, List.getD_cons_succ]
      cases b with
      | true =>
        rw [if_neg (by simp), List.map_map, hcomp, ih mt h]
        simp
      | false =>
        rw [if_pos (by simp), List.map_cons, List.map_map, hcomp, ih mt h]
        simp

/-- C5: on a well-formed state `to_string` agrees with the spec-side
description (occupied slots' items rendered in ascending slot order, joined
by one space, empty slots contributing nothing), returns the empty string
when every slot is empty, and as an operation leaves the state unchanged. -/
theorem to_string_matches_spec {α : Type} (f : α → String) (s : MessageBox α)
    (hw : WF s) :
    s.to_string f = describe_spec s f ∧
    ((∀ i : Nat, i < s.my_size.toNat → s.empty_box.getD i true = true) →
      s.to_string f = "") ∧
    (s.step f Op.to_string).2 = s ∧
    (s.step f Op.to_string).1 = Obs.str (s.to_string f) := by
  refine ⟨?_, ?_, rfl, rfl⟩
  · unfold MessageBox.to_string describe_spec
    rw [← hw.2]
    exact congrArg (String.intercalate " ")
      (range_filter_eq_zip f s.empty_box s.messages (hw.1.trans hw.2.symm))
  · intro hall
    unfold MessageBox.to_string
    have hnil : (List.range s.my_size.toNat).filter
        (fun i => !(s.empty_box.getD i true)) = [] := by
      rw [List.filter_eq_nil_iff]
      intro a ha
      rw [List.mem_range] at ha
      rw [hall a ha]
      simp
    rw [hnil]
    rfl

/-- Witness for C5 at a fresh capacity-2 box. -/
theorem to_string_matches_spec_witness :
    WF (MessageBox.init 2 : MessageBox String) ∧
    ((MessageBox.init 2 : MessageBox String).to_string (fun x => x) =
        describe_spec (MessageBox.init 2) (fun x => x) ∧
      ((∀ i : Nat, i < (MessageBox.init 2 : MessageBox String).my_size.toNat →
          (MessageBox.init 2 : MessageBox String).empty_box.getD i true = true) →
        (MessageBox.init 2 : MessageBox String).to_string (fun x => x) = "") ∧
      ((MessageBox.init 2 : MessageBox String).step (fun x => x) Op.to_string).2 =
        MessageBox.init 2 ∧
      ((MessageBox.init 2 : MessageBox String).step (fun x => x) Op.to_string).1 =
        Obs.str ((MessageBox.init 2 : MessageBox String).to_string (fun x => x))) :=
  ⟨⟨rfl, rfl⟩, to_string_matches_spec (fun x => x) (MessageBox.init 2) ⟨rfl, rfl⟩⟩

theorem toLower_my_size {α : Type} (s : MessageBox α) :
    (toLower s).my_size = s.my_size := rfl

theorem empty_toLower {α : Type} (s : MessageBox α) (i : Option Int) :
    (toLower s).empty i = s.empty i := by
  cases i <;> rfl

theorem full_toLower {α : Type} (s : MessageBox α) (i : Option Int) :
    (toLower s).full i = s.full i := by
  cases i with
  | none => rfl
  | some j =>
    simp only [messagebox.MessageBox.full, MessageBox.full, empty_toLower]

theorem send_toLower {α : Type} (s : MessageBox α) (i : Int) (m : α) :
    (toLower s).send i m = (s.send i m).map toLower := by
  simp only [messagebox.MessageBox.send, MessageBox.send, full_toLower,
    toLower_my_size]
  by_cases h : i < 0 ∨ s.my_size ≤ i
  · rw [if_pos h, if_pos h]
    rfl
  · rw [if_neg h, if_neg h]
    rcases hf : s.full (some i) with e | b
    · rfl
    · cases b <;> rfl

theorem receive_toLower {α : Type} (s : MessageBox α) (i : Int) :
    (toLower s).receive i =
      (s.receive i).map (fun p => (p.1, toLower p.2)) := by
  simp only [messagebox.MessageBox.receive, MessageBox.receive, empty_toLower,
    toLower_my_size]
  by_cases h : i < 0 ∨ s.my_size ≤ i
  · rw [if_pos h, if_pos h]
    rfl
  · rw [if_neg h, if_neg h]
    rcases he : s.empty (some i) with e | b
    · rfl
    · cases b <;> rfl

theorem step_toLower {α : Type} (f : α → String) (s : MessageBox α) (op : Op α) :
    (messagebox.MessageBox.step (toLower s) f op).1 =
      (MessageBox.step s f op).1 ∧
    (messagebox.MessageBox.step (toLower s) f op).2 =
      toLower (MessageBox.step s f op).2 := by
  cases op with
  | send i m =>
    simp only [messagebox.MessageBox.step, MessageBox.step, send_toLower]
    rcases h : s.send i m with e | s2 <;> simp [h, Except.map]
  | receive i =>
    simp only [messagebox.MessageBox.step, MessageBox.step, receive_toLower]
    rcases h : s.receive i with e | p <;> simp [h, Except.map]
  | empty i =>
    simp only [messagebox.MessageBox.step, MessageBox.step, empty_toLower]
    rcases h : s.empty i with e | b <;> simp [h]
  | full i =>
    simp only [messagebox.MessageBox.step, MessageBox.step, full_toLower]
    rcases h : s.full i with e | b <;> simp [h]
  | get_size => exact ⟨rfl, rfl⟩
  | get_count => exact ⟨rfl, rfl⟩
  | to_string => exact ⟨rfl, rfl⟩
  | print => exact ⟨rfl, rfl⟩
  | print_verbose => exact ⟨rfl, rfl⟩

theorem run_toLower {α : Type} (f : α → String) :
    ∀ (ops : List (Op α)) (s : MessageBox α),
      (messagebox.MessageBox.run (toLower s) f ops).1 =
        (MessageBox.run s f ops).1 ∧
      (messagebox.MessageBox.run (toLower s) f ops).2 =
        toLower (MessageBox.run s f ops).2 := by
  intro ops
  induction ops with
  | nil => intro s; exact ⟨rfl, rfl⟩
  | cons op ops ih =>
    intro s
    obtain ⟨h1, h2⟩ := step_toLower f s op
    simp only [messagebox.MessageBox.run, MessageBox.run]
    refine ⟨?_, ?_⟩
    · rw [h1, h2]
      exact congrArg (List.cons _) (ih _).1
    · rw [h2]
      exact (ih _).2

/-- C10: `MessageBox.py` and `messagebox.py` are behaviorally equivalent —
construction gives related states, and running any sequence of public
operations from construction yields identical observations (results and
error kinds) in both, with the final states related field for field. -/
theorem implementations_equivalent {α : Type} (f : α → String) (n : Int)
    (ops : List (Op α)) :
    (messagebox.MessageBox.init n : messagebox.MessageBox α) =
      toLower (MessageBox.init n : MessageBox α) ∧
    ((messagebox.MessageBox.init n : messagebox.MessageBox α).run f ops).1 =
      ((MessageBox.init n : MessageBox α).run f ops).1 ∧
    ((messagebox.MessageBox.init n : messagebox.MessageBox α).run f ops).2 =
      toLower ((MessageBox.init n : MessageBox α).run f ops).2 := by
  have hinit : (messagebox.MessageBox.init n : messagebox.MessageBox α) =
      toLower (MessageBox.init n : MessageBox α) := rfl
  refine ⟨hinit, ?_, ?_⟩
  · rw [hinit]
    exact (run_toLower f ops (MessageBox.init n)).1
  · rw [hinit]
    exact (run_toLower f ops (MessageBox.init n)).2
